import Mathlib

/-!
# Verification of the location registry / favorites / history core

Shallow embedding of the bookkeeping core of the skycast weather app:
`server/storage.ts` (class `DatabaseStorage`) and the `/api/locations/*`
route handlers of `server/routes.ts`.

Modelling conventions:
* The relational store is a `Store` record holding the three tables as
  lists in insertion order, together with the next value of each `serial`
  primary-key sequence.
* Timestamps (`defaultNow()` columns, `new Date()`) are natural numbers
  supplied explicitly as a `now` argument to each operation.
* Coordinates are integers: the code only ever compares coordinates for
  exact equality (`eq(locations.lat, lat)`), and the zod validator
  `z.number()` rejects `NaN`, so any type with decidable equality is a
  faithful model of the bit-exact comparison the code performs.
* The `userId` column is `Option String` (`none` = SQL `NULL`).  The
  drizzle condition `userId ? eq(col, userId) : isNull(col)` branches on
  JavaScript truthiness, under which `undefined`, `null` and the empty
  string are all falsy; `scopeMatches` embeds exactly that expression.
* A SQL `SELECT ... LIMIT 1` destructured to its first element is
  `List.find?`.  The executable model of `ORDER BY x DESC` is a
  deterministic sort (`List.insertionSort`) by the key, descending; since
  the SQL fixes no order among rows with equal keys, ordering claims about
  ties are settled against `orderByCreatedAtDescAdmissible`, the predicate
  describing every result the SQL allows, of which the deterministic model
  is one.
-/

namespace Skycast

/-- Row of the `locations` table (`shared/schema.ts`). -/
structure Location where
  id : Nat
  name : String
  country : String
  state : Option String
  lat : Int
  lon : Int
  createdAt : Nat
  updatedAt : Nat
  deriving Repr, DecidableEq

/-- Row of the `favorite_locations` table. -/
structure FavoriteRow where
  id : Nat
  locationId : Nat
  userId : Option String
  createdAt : Nat
  deriving Repr, DecidableEq

/-- Row of the `location_history` table. -/
structure HistoryRow where
  id : Nat
  locationId : Nat
  userId : Option String
  visitCount : Nat
  lastVisited : Nat
  deriving Repr, DecidableEq

/-- Payload accepted by `insertLocationSchema.parse` after defaulting:
`country` has already received its `"Unknown"` default, `state` may be
absent. -/
structure InsertLocation where
  name : String
  country : String
  state : Option String
  lat : Int
  lon : Int
  deriving Repr, DecidableEq

/-- The whole relational store: the three tables in insertion order plus
the state of each `serial` sequence. -/
structure Store where
  locations : List Location
  favorites : List FavoriteRow
  history : List HistoryRow
  nextLocId : Nat
  nextFavId : Nat
  nextHistId : Nat
  deriving Repr, DecidableEq

/-- The empty store; `serial` sequences start at 1 as in PostgreSQL. -/
def emptyStore : Store := ⟨[], [], [], 1, 1, 1⟩

/-- JavaScript truthiness of a `string | null | undefined` value:
truthy iff it is a non-empty string. -/
def truthy : Option String → Bool
  | some u => !(u == "")
  | none => false

/-- The call-site normalisation `userId || null` (`routes.ts`): a falsy
identity (absent, `null`, or `""`) is stored as SQL `NULL`. -/
def normId (uid : Option String) : Option String :=
  if truthy uid then uid else none

/-- The drizzle filter `userId ? eq(col, userId) : isNull(col)` used by
every scoped query in `storage.ts`, applied to the `userId` column value
of one row.  SQL `eq` against a `NULL` column is false. -/
def scopeMatches (uid row : Option String) : Bool :=
  if truthy uid then row == uid else row == none

theorem scopeMatches_eq_normId (uid row : Option String) :
    scopeMatches uid row = (row == normId uid) := by
  unfold scopeMatches normId
  by_cases h : truthy uid <;> simp [h]

theorem scopeMatches_normId (uid : Option String) :
    scopeMatches uid (normId uid) = true := by
  rw [scopeMatches_eq_normId]
  simp

/-- `DatabaseStorage.findLocationByCoords`: first row whose coordinates
match exactly (`SELECT ... WHERE lat = ? AND lon = ? LIMIT 1`). -/
def findLocationByCoords (s : Store) (lat lon : Int) : Option Location :=
  s.locations.find? (fun l => l.lat == lat && l.lon == lon)

/-- `DatabaseStorage.createLocation`: unconditional insert; timestamps
default to now, the id is drawn from the serial sequence. -/
def createLocation (s : Store) (d : InsertLocation) (now : Nat) :
    Location × Store :=
  let loc : Location :=
    ⟨s.nextLocId, d.name, d.country, d.state, d.lat, d.lon, now, now⟩
  (loc, { s with locations := s.locations ++ [loc],
                 nextLocId := s.nextLocId + 1 })

/-- `DatabaseStorage.addFavorite`: unconditional insert of a favourite
row (the duplicate check lives in the route, not here). -/
def addFavorite (s : Store) (locationId : Nat) (userId : Option String)
    (now : Nat) : FavoriteRow × Store :=
  let row : FavoriteRow := ⟨s.nextFavId, locationId, userId, now⟩
  (row, { s with favorites := s.favorites ++ [row],
                 nextFavId := s.nextFavId + 1 })

/-- The drizzle condition `and(eq(favoriteLocations.locationId, locationId),
userId ? eq(...) : isNull(...))` shared by `removeFavorite` and
`isFavorite`. -/
def favMatches (locationId : Nat) (uid : Option String) (r : FavoriteRow) :
    Bool :=
  r.locationId == locationId && scopeMatches uid r.userId

/-- `DatabaseStorage.removeFavorite`: delete every favourite row matching
the location and the identity scope. -/
def removeFavorite (s : Store) (locationId : Nat) (uid : Option String) :
    Store :=
  let keep := s.favorites.filter (fun r => !(favMatches locationId uid r))
  { s with favorites := keep }

/-- `DatabaseStorage.isFavorite`: does some favourite row match the
location and the identity scope? -/
def isFavorite (s : Store) (locationId : Nat) (uid : Option String) : Bool :=
  s.favorites.any (favMatches locationId uid)

/-- Descending order on favourite creation time: the relation handed to
the stable sort that models `ORDER BY created_at DESC`. -/
def favOrder (p q : FavoriteRow × Location) : Prop :=
  q.1.createdAt ≤ p.1.createdAt

instance : DecidableRel favOrder :=
  fun p q => Nat.decLe q.1.createdAt p.1.createdAt

/-- The scoped join inside `DatabaseStorage.getFavoriteLocations`, before
`ORDER BY`: scope filter and inner join on `locations.id`. -/
def favJoinRows (s : Store) (uid : Option String) :
    List (FavoriteRow × Location) :=
  (s.favorites.filter (fun r => scopeMatches uid r.userId)).filterMap
    (fun r => (s.locations.find? (fun l => l.id == r.locationId)).map
      (fun l => (r, l)))

/-- The query inside `DatabaseStorage.getFavoriteLocations`: the join
followed by `ORDER BY created_at DESC`.  The query has no secondary sort
key, so SQL fixes no order among rows with equal `created_at`; this
executable model picks one admissible result (a stable sort).  What the
SQL itself guarantees is `orderByCreatedAtDescAdmissible` below, and
`favQuery` is proved to be one of its admissible results. -/
def favQuery (s : Store) (uid : Option String) :
    List (FavoriteRow × Location) :=
  (favJoinRows s uid).insertionSort favOrder

/-- What `ORDER BY created_at DESC` with no secondary sort key
guarantees, and nothing more: an admissible result is some permutation
of the joined rows that is sorted by creation time descending.  The
relative order of rows with equal `created_at` is unspecified. -/
def orderByCreatedAtDescAdmissible
    (rows result : List (FavoriteRow × Location)) : Prop :=
  result.Perm rows ∧
  result.Pairwise (fun p q => q.1.createdAt ≤ p.1.createdAt)

/-- `DatabaseStorage.getFavoriteLocations`: the joined `Location` columns
of `favQuery`. -/
def getFavoriteLocations (s : Store) (uid : Option String) : List Location :=
  (favQuery s uid).map (fun p => p.2)

/-- Descending order on last-visited time, for
`ORDER BY last_visited DESC`. -/
def histOrder (p q : HistoryRow × Location) : Prop :=
  q.1.lastVisited ≤ p.1.lastVisited

instance : DecidableRel histOrder :=
  fun p q => Nat.decLe q.1.lastVisited p.1.lastVisited

/-- The query inside `DatabaseStorage.getLocationHistory` before `LIMIT`:
scope filter, inner join on `locations.id`, `ORDER BY last_visited DESC`
(stable). -/
def historyQuery (s : Store) (uid : Option String) :
    List (HistoryRow × Location) :=
  ((s.history.filter (fun r => scopeMatches uid r.userId)).filterMap
      (fun r => (s.locations.find? (fun l => l.id == r.locationId)).map
        (fun l => (r, l)))).insertionSort histOrder

/-- `DatabaseStorage.getLocationHistory` with an explicit `limit`. -/
def getLocationHistory (s : Store) (uid : Option String) (limit : Nat) :
    List Location :=
  ((historyQuery s uid).take limit).map (fun p => p.2)

/-- `DatabaseStorage.getLocationHistory` when the caller omits `limit`:
the TypeScript default parameter `limit: number = 10` applies. -/
def getLocationHistoryD (s : Store) (uid : Option String) : List Location :=
  getLocationHistory s uid 10

/-- The drizzle condition `and(eq(locationHistory.locationId, locationId),
userId ? eq(...) : isNull(...))` used by `addToHistory`. -/
def histMatches (locationId : Nat) (uid : Option String) (r : HistoryRow) :
    Bool :=
  r.locationId == locationId && scopeMatches uid r.userId

/-- The `UPDATE location_history SET visit_count = ... + 1, last_visited =
now WHERE id = existing.id` step of `addToHistory`, as its per-row
action. -/
def bumpVisit (targetId : Nat) (now : Nat) (r : HistoryRow) : HistoryRow :=
  if r.id == targetId then
    { r with visitCount := r.visitCount + 1, lastVisited := now }
  else r

/-- `DatabaseStorage.addToHistory`: look up the first history row for
(location, identity scope); if found, bump its visit count and refresh
its timestamp (update keyed on the row id); otherwise insert a fresh row
with count 1 and identity `userId || null`. -/
def addToHistory (s : Store) (locationId : Nat) (uid : Option String)
    (now : Nat) : Store :=
  match s.history.find? (histMatches locationId uid) with
  | some ex =>
      { s with history := s.history.map (bumpVisit ex.id now) }
  | none =>
      let newRow : HistoryRow := ⟨s.nextHistId, locationId, normId uid, 1, now⟩
      { s with history := s.history ++ [newRow],
               nextHistId := s.nextHistId + 1 }

/-- `DatabaseStorage.clearHistory`: delete every history row in the
identity scope. -/
def clearHistory (s : Store) (uid : Option String) : Store :=
  let keep := s.history.filter (fun r => !(scopeMatches uid r.userId))
  { s with history := keep }

/-- The get-or-create step shared by the two POST routes
(`routes.ts`): `findLocationByCoords`, and on a miss `createLocation`
with the parsed payload.  The lookup uses the payload's coordinates. -/
def resolveOrCreateLocation (s : Store) (d : InsertLocation) (now : Nat) :
    Location × Store :=
  match findLocationByCoords s d.lat d.lon with
  | some l => (l, s)
  | none => createLocation s d now

/-- Outcome of `POST /api/locations/favorites`. -/
inductive PostFavResult where
  | created (loc : Location) (fav : FavoriteRow)
  | alreadyFav (loc : Location)
  deriving Repr, DecidableEq

/-- `POST /api/locations/favorites` (`routes.ts`): parse (with the
`country` default `"Unknown"`), resolve-or-create the location, reject
with 409 when `isFavorite` already holds, otherwise insert the favourite
with identity `userId || null`.  Typed input always passes the zod
parse. -/
def postFavorite (s : Store) (name : String) (country : Option String)
    (state : Option String) (lat lon : Int) (uid : Option String)
    (now : Nat) : PostFavResult × Store :=
  let d : InsertLocation := ⟨name, country.getD "Unknown", state, lat, lon⟩
  let r := resolveOrCreateLocation s d now
  if isFavorite r.2 r.1.id uid then (.alreadyFav r.1, r.2)
  else
    let a := addFavorite r.2 r.1.id (normId uid) now
    (.created r.1 a.1, a.2)

/-- `POST /api/locations/history` (`routes.ts`): resolve-or-create the
location, then `addToHistory` with identity `userId || null` (the
normalisation inside `addToHistory` makes the outer one idempotent). -/
def postHistory (s : Store) (name : String) (country : Option String)
    (state : Option String) (lat lon : Int) (uid : Option String)
    (now : Nat) : Location × Store :=
  let d : InsertLocation := ⟨name, country.getD "Unknown", state, lat, lon⟩
  let r := resolveOrCreateLocation s d now
  (r.1, addToHistory r.2 r.1.id (normId uid) now)

/-! ### Basic facts about scoping and the get-or-create step -/

theorem truthy_empty : truthy (some "") = false := rfl

theorem truthy_none : truthy none = false := rfl

theorem scopeMatches_empty_eq_none (row : Option String) :
    scopeMatches (some "") row = scopeMatches none row := rfl

theorem normId_empty_eq_none : normId (some "") = normId none := rfl

theorem favMatches_empty_eq_none (locId : Nat) :
    favMatches locId (some "") = favMatches locId none :=
  funext fun _ => rfl

theorem histMatches_empty_eq_none (locId : Nat) :
    histMatches locId (some "") = histMatches locId none :=
  funext fun _ => rfl

theorem resolveOrCreateLocation_favorites (s : Store) (d : InsertLocation)
    (t : Nat) : (resolveOrCreateLocation s d t).2.favorites = s.favorites := by
  unfold resolveOrCreateLocation
  cases findLocationByCoords s d.lat d.lon <;> rfl

theorem resolveOrCreateLocation_history (s : Store) (d : InsertLocation)
    (t : Nat) : (resolveOrCreateLocation s d t).2.history = s.history := by
  unfold resolveOrCreateLocation
  cases findLocationByCoords s d.lat d.lon <;> rfl

/-- After the get-or-create step, looking the coordinates up again finds
exactly the location the step returned. -/
theorem find_after_resolveOrCreate (s : Store) (d : InsertLocation) (t : Nat) :
    findLocationByCoords (resolveOrCreateLocation s d t).2 d.lat d.lon =
      some (resolveOrCreateLocation s d t).1 := by
  unfold resolveOrCreateLocation
  cases h : findLocationByCoords s d.lat d.lon with
  | some l =>
      simpa using h
  | none =>
      simp only [createLocation, findLocationByCoords] at h ⊢
      rw [List.find?_append, h]
      simp

/-- C2: invoking the resolve-or-create step twice sequentially with
bit-identical coordinates (the other attributes may differ) yields the
same Location — in particular the same identifier — and the second
invocation changes nothing: no new Location row is created. -/
theorem resolveOrCreate_twice_same (s : Store) (d₁ d₂ : InsertLocation)
    (t₁ t₂ : Nat) (hlat : d₂.lat = d₁.lat) (hlon : d₂.lon = d₁.lon) :
    (resolveOrCreateLocation (resolveOrCreateLocation s d₁ t₁).2 d₂ t₂).1.id =
      (resolveOrCreateLocation s d₁ t₁).1.id ∧
    resolveOrCreateLocation (resolveOrCreateLocation s d₁ t₁).2 d₂ t₂ =
      resolveOrCreateLocation s d₁ t₁ := by
  have h2 : findLocationByCoords (resolveOrCreateLocation s d₁ t₁).2
      d₂.lat d₂.lon = some (resolveOrCreateLocation s d₁ t₁).1 := by
    rw [hlat, hlon]
    exact find_after_resolveOrCreate s d₁ t₁
  have hmain : resolveOrCreateLocation (resolveOrCreateLocation s d₁ t₁).2
      d₂ t₂ = resolveOrCreateLocation s d₁ t₁ := by
    conv_lhs => rw [resolveOrCreateLocation]
    rw [h2]
  exact ⟨by rw [hmain], hmain⟩

theorem resolveOrCreate_twice_same_witness :
    (resolveOrCreateLocation
        (resolveOrCreateLocation emptyStore ⟨"Paris", "FR", none, 48, 2⟩ 1).2
        ⟨"Paris bis", "FR", none, 48, 2⟩ 2).1.id =
      (resolveOrCreateLocation emptyStore ⟨"Paris", "FR", none, 48, 2⟩ 1).1.id ∧
    resolveOrCreateLocation
        (resolveOrCreateLocation emptyStore ⟨"Paris", "FR", none, 48, 2⟩ 1).2
        ⟨"Paris bis", "FR", none, 48, 2⟩ 2 =
      resolveOrCreateLocation emptyStore ⟨"Paris", "FR", none, 48, 2⟩ 1 :=
  resolveOrCreate_twice_same emptyStore ⟨"Paris", "FR", none, 48, 2⟩
    ⟨"Paris bis", "FR", none, 48, 2⟩ 1 2 rfl rfl

/-- Removing a favourite really removes the whole scope: the check comes
back false afterwards, whatever the store was. -/
theorem isFavorite_after_remove (s : Store) (locId : Nat)
    (uid : Option String) :
    isFavorite (removeFavorite s locId uid) locId uid = false := by
  simp only [isFavorite, removeFavorite, List.any_eq_false]
  intro r hr
  rw [List.mem_filter] at hr
  have h2 := hr.2
  simp only [Bool.not_eq_true'] at h2
  simp [h2]

theorem favMatches_insert (locId : Nat) (uid : Option String) (i t : Nat) :
    favMatches locId uid ⟨i, locId, normId uid, t⟩ = true := by
  simp [favMatches, scopeMatches_normId]

/-- C5: after adding a favourite for (location, identity) — the insert
stores `userId || null` as every caller does — `isFavorite` for the same
pair returns true; after a subsequent `removeFavorite` it returns
false. -/
theorem addFavorite_isFavorite_removeFavorite (s : Store) (locId : Nat)
    (uid : Option String) (t : Nat) :
    isFavorite (addFavorite s locId (normId uid) t).2 locId uid = true ∧
    isFavorite
      (removeFavorite (addFavorite s locId (normId uid) t).2 locId uid)
      locId uid = false := by
  refine ⟨?_, isFavorite_after_remove _ _ _⟩
  simp [isFavorite, addFavorite, List.any_append, favMatches_insert]

/-- C9: `removeFavorite` is idempotent and a remove whose target is
absent is a no-op, not an error. -/
theorem removeFavorite_idempotent (s : Store) (locId : Nat)
    (uid : Option String) :
    (isFavorite s locId uid = false → removeFavorite s locId uid = s) ∧
    removeFavorite (removeFavorite s locId uid) locId uid =
      removeFavorite s locId uid := by
  constructor
  · intro h
    rw [isFavorite, List.any_eq_false] at h
    cases s with
    | mk ls fs hs a b c =>
      simp only [removeFavorite]
      congr 1
      rw [List.filter_eq_self]
      intro x hx
      rw [Bool.not_eq_true']
      have hx2 := h x hx
      rwa [Bool.not_eq_true] at hx2
  · cases s with
    | mk ls fs hs a b c =>
      simp only [removeFavorite]
      congr 1
      exact List.filter_eq_self.2 (fun x hx => (List.mem_filter.1 hx).2)

theorem removeFavorite_idempotent_witness :
    (isFavorite emptyStore 1 none = false →
      removeFavorite emptyStore 1 none = emptyStore) ∧
    removeFavorite (removeFavorite emptyStore 1 none) 1 none =
      removeFavorite emptyStore 1 none :=
  removeFavorite_idempotent emptyStore 1 none

/-- C10: the empty-string identity is indistinguishable from the absent
(shared anonymous / SQL `NULL`) identity: every core operation produces
the same result and the same resulting state for `some ""` as for
`none`. -/
theorem emptyString_identity_anonymous (s : Store) (locId : Nat)
    (name : String) (country : Option String) (state : Option String)
    (lat lon : Int) (limit t : Nat) :
    getFavoriteLocations s (some "") = getFavoriteLocations s none ∧
    postFavorite s name country state lat lon (some "") t =
      postFavorite s name country state lat lon none t ∧
    removeFavorite s locId (some "") = removeFavorite s locId none ∧
    isFavorite s locId (some "") = isFavorite s locId none ∧
    getLocationHistory s (some "") limit = getLocationHistory s none limit ∧
    addToHistory s locId (some "") t = addToHistory s locId none t ∧
    clearHistory s (some "") = clearHistory s none := by
  refine ⟨?_, ?_, ?_, ?_, ?_, ?_, ?_⟩ <;>
    simp only [getFavoriteLocations, favQuery, favJoinRows, postFavorite,
      isFavorite, removeFavorite, getLocationHistory, historyQuery,
      addToHistory, clearHistory, favMatches_empty_eq_none,
      histMatches_empty_eq_none, scopeMatches_empty_eq_none,
      normId_empty_eq_none]

/-! ### Visit recording (C3) -/

theorem bumpVisit_locationId (tid t : Nat) (r : HistoryRow) :
    (bumpVisit tid t r).locationId = r.locationId := by
  unfold bumpVisit
  split <;> rfl

theorem bumpVisit_userId (tid t : Nat) (r : HistoryRow) :
    (bumpVisit tid t r).userId = r.userId := by
  unfold bumpVisit
  split <;> rfl

theorem bumpVisit_id (tid t : Nat) (r : HistoryRow) :
    (bumpVisit tid t r).id = r.id := by
  unfold bumpVisit
  split <;> rfl

/-- `bumpVisit` only touches the count and the timestamp, so it preserves
the (location, identity) match condition. -/
theorem histMatches_bumpVisit (locId : Nat) (uid : Option String)
    (tid t : Nat) (r : HistoryRow) :
    histMatches locId uid (bumpVisit tid t r) = histMatches locId uid r := by
  unfold histMatches
  rw [bumpVisit_locationId, bumpVisit_userId]

theorem histMatches_insert (locId : Nat) (uid : Option String) (i c t : Nat) :
    histMatches locId uid ⟨i, locId, normId uid, c, t⟩ = true := by
  simp [histMatches, scopeMatches_normId]

theorem filter_histMatches_map_bumpVisit (locId : Nat) (uid : Option String)
    (tid t : Nat) (l : List HistoryRow) :
    (l.map (bumpVisit tid t)).filter (histMatches locId uid) =
      (l.filter (histMatches locId uid)).map (bumpVisit tid t) := by
  rw [List.filter_map]
  congr 1
  apply List.filter_congr
  intro r _
  exact histMatches_bumpVisit locId uid tid t r

theorem find?_histMatches_map_bumpVisit (locId : Nat) (uid : Option String)
    (tid t : Nat) (l : List HistoryRow) :
    (l.map (bumpVisit tid t)).find? (histMatches locId uid) =
      (l.find? (histMatches locId uid)).map (bumpVisit tid t) := by
  induction l with
  | nil => rfl
  | cons a l ih =>
      rw [List.map_cons]
      cases hm : histMatches locId uid a with
      | true =>
          have hm2 : histMatches locId uid (bumpVisit tid t a) = true := by
            rw [histMatches_bumpVisit]
            exact hm
          rw [List.find?_cons_of_pos _ hm2, List.find?_cons_of_pos _ hm,
            Option.map_some']
      | false =>
          have hm2 : ¬histMatches locId uid (bumpVisit tid t a) = true := by
            rw [histMatches_bumpVisit]
            simp [hm]
          rw [List.find?_cons_of_neg _ hm2,
            List.find?_cons_of_neg _ (by simp [hm]), ih]

/-- C3: `recordVisit` (`addToHistory`) has upsert semantics.  Starting
from any store with no history entry for the (location, identity) pair,
the first visit creates the single matching entry with count 1 and the
supplied timestamp, and each of the two following visits updates that
same single entry in place — count 2 then 3, timestamp refreshed — so
three sequential visits leave exactly one matching entry with
`visit_count = 3` and `last_visited` equal to the time of the third
call. -/
theorem recordVisit_upsert_three (s : Store) (locId : Nat)
    (uid : Option String) (t₁ t₂ t₃ : Nat)
    (h : s.history.filter (histMatches locId uid) = []) :
    ((addToHistory s locId uid t₁).history.filter
        (histMatches locId uid)).map (fun r => (r.visitCount, r.lastVisited))
      = [(1, t₁)] ∧
    ((addToHistory (addToHistory s locId uid t₁) locId uid t₂).history.filter
        (histMatches locId uid)).map (fun r => (r.visitCount, r.lastVisited))
      = [(2, t₂)] ∧
    ((addToHistory (addToHistory (addToHistory s locId uid t₁) locId uid t₂)
        locId uid t₃).history.filter
        (histMatches locId uid)).map (fun r => (r.visitCount, r.lastVisited))
      = [(3, t₃)] := by
  have hnone : s.history.find? (histMatches locId uid) = none := by
    rw [List.find?_eq_none]
    intro x hx hmatch
    have hmem : x ∈ s.history.filter (histMatches locId uid) :=
      List.mem_filter.2 ⟨hx, hmatch⟩
    rw [h] at hmem
    exact absurd hmem (List.not_mem_nil x)
  obtain ⟨s₁, hs₁⟩ : ∃ x, addToHistory s locId uid t₁ = x := ⟨_, rfl⟩
  -- the first visit inserts the fresh row
  have hist1 : s₁.history =
      s.history ++ [⟨s.nextHistId, locId, normId uid, 1, t₁⟩] := by
    rw [← hs₁]
    simp only [addToHistory, hnone]
  have hfilter1 : s₁.history.filter (histMatches locId uid) =
      [⟨s.nextHistId, locId, normId uid, 1, t₁⟩] := by
    rw [hist1, List.filter_append, h, List.nil_append]
    simp [histMatches_insert]
  have hfind1 : s₁.history.find? (histMatches locId uid) =
      some ⟨s.nextHistId, locId, normId uid, 1, t₁⟩ := by
    rw [hist1, List.find?_append, hnone, Option.none_or]
    exact List.find?_cons_of_pos _ (histMatches_insert locId uid _ _ _)
  obtain ⟨s₂, hs₂⟩ : ∃ x, addToHistory s₁ locId uid t₂ = x := ⟨_, rfl⟩
  -- the second visit updates that row in place
  have hist2 : s₂.history = s₁.history.map (bumpVisit s.nextHistId t₂) := by
    rw [← hs₂]
    simp only [addToHistory, hfind1]
  have hfilter2 : s₂.history.filter (histMatches locId uid) =
      [⟨s.nextHistId, locId, normId uid, 2, t₂⟩] := by
    rw [hist2, filter_histMatches_map_bumpVisit, hfilter1]
    simp [bumpVisit]
  have hfind2 : s₂.history.find? (histMatches locId uid) =
      some ⟨s.nextHistId, locId, normId uid, 2, t₂⟩ := by
    rw [hist2, find?_histMatches_map_bumpVisit, hfind1]
    simp [bumpVisit]
  obtain ⟨s₃, hs₃⟩ : ∃ x, addToHistory s₂ locId uid t₃ = x := ⟨_, rfl⟩
  -- the third visit updates it again
  have hist3 : s₃.history = s₂.history.map (bumpVisit s.nextHistId t₃) := by
    rw [← hs₃]
    simp only [addToHistory, hfind2]
  have hfilter3 : s₃.history.filter (histMatches locId uid) =
      [⟨s.nextHistId, locId, normId uid, 3, t₃⟩] := by
    rw [hist3, filter_histMatches_map_bumpVisit, hfilter2]
    simp [bumpVisit]
  rw [hs₁, hs₂, hs₃, hfilter1, hfilter2, hfilter3]
  exact ⟨rfl, rfl, rfl⟩

theorem recordVisit_upsert_three_witness :
    ((addToHistory emptyStore 1 (some "u") 4).history.filter
        (histMatches 1 (some "u"))).map (fun r => (r.visitCount, r.lastVisited))
      = [(1, 4)] ∧
    ((addToHistory (addToHistory emptyStore 1 (some "u") 4) 1 (some "u")
        5).history.filter
        (histMatches 1 (some "u"))).map (fun r => (r.visitCount, r.lastVisited))
      = [(2, 5)] ∧
    ((addToHistory (addToHistory (addToHistory emptyStore 1 (some "u") 4) 1
        (some "u") 5) 1 (some "u") 6).history.filter
        (histMatches 1 (some "u"))).map (fun r => (r.visitCount, r.lastVisited))
      = [(3, 6)] :=
  recordVisit_upsert_three emptyStore 1 (some "u") 4 5 6 rfl

/-! ### Duplicate add-favorite (C4) -/

/-- Number of favourite rows in an identity's scope. -/
def favCount (s : Store) (uid : Option String) : Nat :=
  (s.favorites.filter (fun r => scopeMatches uid r.userId)).length

theorem addFavorite_locations (s : Store) (lid : Nat) (u : Option String)
    (t : Nat) : (addFavorite s lid u t).2.locations = s.locations := rfl

theorem addFavorite_favorites (s : Store) (lid : Nat) (u : Option String)
    (t : Nat) :
    (addFavorite s lid u t).2.favorites =
      s.favorites ++ [⟨s.nextFavId, lid, u, t⟩] := rfl

theorem findLocationByCoords_eq_of_locations (s s' : Store)
    (h : s.locations = s'.locations) (lat lon : Int) :
    findLocationByCoords s lat lon = findLocationByCoords s' lat lon := by
  unfold findLocationByCoords
  rw [h]

/-- C4: if an add-favorite call succeeded (`created`), repeating it
sequentially with the same arguments signals AlreadyFavorited, inserts
nothing and leaves the store exactly as it was after the first call; if
the identity started with no favourites its favourites count is 1 after
the first call and stays 1.  The two results differ, so add-favorite is
not idempotent in its result. -/
theorem addFavorite_second_already (s : Store) (name : String)
    (country state : Option String) (lat lon : Int) (uid : Option String)
    (t₁ t₂ : Nat) (loc : Location) (fav : FavoriteRow) (s₁ : Store)
    (h0 : favCount s uid = 0)
    (h1 : postFavorite s name country state lat lon uid t₁ =
      (PostFavResult.created loc fav, s₁)) :
    postFavorite s₁ name country state lat lon uid t₂ =
      (PostFavResult.alreadyFav loc, s₁) ∧
    favCount s₁ uid = 1 ∧
    (PostFavResult.created loc fav ≠ PostFavResult.alreadyFav loc) := by
  obtain ⟨p, hp⟩ : ∃ x,
      resolveOrCreateLocation s ⟨name, country.getD "Unknown", state, lat, lon⟩
        t₁ = x := ⟨_, rfl⟩
  simp only [postFavorite, hp] at h1
  cases hguard : isFavorite p.2 p.1.id uid with
  | true =>
      rw [if_pos hguard] at h1
      exact absurd (congrArg Prod.fst h1) (by simp)
  | false =>
      rw [if_neg (by simp [hguard])] at h1
      rw [Prod.mk.injEq, PostFavResult.created.injEq] at h1
      obtain ⟨⟨hloc, _⟩, hs⟩ := h1
      -- the favourite row inserted by the first call
      have hrow : s₁.favorites =
          p.2.favorites ++ [⟨p.2.nextFavId, p.1.id, normId uid, t₁⟩] := by
        rw [← hs]
        rfl
      have hlocs : s₁.locations = p.2.locations := by
        rw [← hs]
        rfl
      -- the second lookup finds the same location again
      have hfind2 : findLocationByCoords s₁ lat lon = some loc := by
        have hfp := find_after_resolveOrCreate s
          ⟨name, country.getD "Unknown", state, lat, lon⟩ t₁
        rw [hp] at hfp
        rw [findLocationByCoords_eq_of_locations s₁ p.2 hlocs, ← hloc]
        exact hfp
      have hrc2 : resolveOrCreateLocation s₁
          ⟨name, country.getD "Unknown", state, lat, lon⟩ t₂ = (loc, s₁) := by
        rw [resolveOrCreateLocation]
        show (match findLocationByCoords s₁ lat lon with
          | some l => (l, s₁)
          | none => createLocation s₁
              ⟨name, country.getD "Unknown", state, lat, lon⟩ t₂) = (loc, s₁)
        rw [hfind2]
      -- the inserted row makes the second duplicate check fire
      have hguard2 : isFavorite s₁ loc.id uid = true := by
        rw [isFavorite, hrow, List.any_append]
        have hone : favMatches loc.id uid ⟨p.2.nextFavId, p.1.id, normId uid, t₁⟩
            = true := by
          rw [favMatches, hloc]
          simp [scopeMatches_normId]
        simp [hone]
      constructor
      · simp only [postFavorite, hrc2]
        rw [if_pos hguard2]
      constructor
      · have hfavs : p.2.favorites = s.favorites := by
          rw [← hp]
          exact resolveOrCreateLocation_favorites s _ t₁
        have hcnt : (p.2.favorites.filter
            (fun r => scopeMatches uid r.userId)).length = 0 := by
          rw [hfavs]
          exact h0
        rw [favCount, hrow, List.filter_append, List.length_append, hcnt]
        simp [scopeMatches_normId]
      · intro hcontra
        exact PostFavResult.noConfusion hcontra

theorem addFavorite_second_already_witness :
    postFavorite
        (postFavorite emptyStore "NYC" (some "US") none 40 (-74) (some "u1")
          3).2 "NYC" (some "US") none 40 (-74) (some "u1") 9 =
      (PostFavResult.alreadyFav ⟨1, "NYC", "US", none, 40, -74, 3, 3⟩,
        (postFavorite emptyStore "NYC" (some "US") none 40 (-74) (some "u1")
          3).2) ∧
    favCount
        (postFavorite emptyStore "NYC" (some "US") none 40 (-74) (some "u1")
          3).2 (some "u1") = 1 ∧
    (PostFavResult.created ⟨1, "NYC", "US", none, 40, -74, 3, 3⟩
        ⟨1, 1, some "u1", 3⟩ ≠
      PostFavResult.alreadyFav ⟨1, "NYC", "US", none, 40, -74, 3, 3⟩) :=
  addFavorite_second_already emptyStore "NYC" (some "US") none 40 (-74)
    (some "u1") 3 9 ⟨1, "NYC", "US", none, 40, -74, 3, 3⟩ ⟨1, 1, some "u1", 3⟩
    (postFavorite emptyStore "NYC" (some "US") none 40 (-74) (some "u1") 3).2
    (by decide) (by decide)

/-! ### Reachable-state invariant (C1) -/

/-- One mutating facade request, as accepted by the HTTP boundary. -/
inductive Op where
  | addFav (name : String) (country : Option String) (state : Option String)
      (lat lon : Int) (uid : Option String)
  | removeFav (locId : Nat) (uid : Option String)
  | addHist (name : String) (country : Option String) (state : Option String)
      (lat lon : Int) (uid : Option String)
  | clearHist (uid : Option String)

/-- State transition of one facade request executed at time `now`. -/
def applyOp (s : Store) (op : Op) (now : Nat) : Store :=
  match op with
  | .addFav n c st lat lon uid => (postFavorite s n c st lat lon uid now).2
  | .removeFav l uid => removeFavorite s l uid
  | .addHist n c st lat lon uid => (postHistory s n c st lat lon uid now).2
  | .clearHist uid => clearHistory s uid

/-- Stores reachable from the empty store by facade operations executed
sequentially. -/
inductive Reachable : Store → Prop where
  | empty : Reachable emptyStore
  | step (s : Store) (op : Op) (now : Nat) :
      Reachable s → Reachable (applyOp s op now)

/-- No two favourite rows share the (location, identity) key. -/
def favRowsUnique (l : List FavoriteRow) : Prop :=
  l.Pairwise (fun a b => ¬(a.locationId = b.locationId ∧ a.userId = b.userId))

/-- No two history rows share the (location, identity) key. -/
def histRowsUnique (l : List HistoryRow) : Prop :=
  l.Pairwise (fun a b => ¬(a.locationId = b.locationId ∧ a.userId = b.userId))

/-- If no two list elements can both satisfy `p`, at most one row
survives `filter p`. -/
theorem length_filter_le_one {α : Type} (p : α → Bool) (l : List α)
    (h : l.Pairwise (fun a b => ¬(p a = true ∧ p b = true))) :
    (l.filter p).length ≤ 1 := by
  induction l with
  | nil => simp
  | cons a l ih =>
      rw [List.pairwise_cons] at h
      rw [List.filter_cons]
      cases hpa : p a with
      | false =>
          simpa using ih h.2
      | true =>
          have hrest : l.filter p = [] := by
            rw [List.filter_eq_nil_iff]
            intro b hb hpb
            exact h.1 b hb ⟨hpa, hpb⟩
          simp [hrest]

theorem addToHistory_favorites (s : Store) (locId : Nat)
    (uid : Option String) (t : Nat) :
    (addToHistory s locId uid t).favorites = s.favorites := by
  unfold addToHistory
  split <;> rfl

theorem addToHistory_locations (s : Store) (locId : Nat)
    (uid : Option String) (t : Nat) :
    (addToHistory s locId uid t).locations = s.locations := by
  unfold addToHistory
  split <;> rfl

/-- add-favorite never touches the history table. -/
theorem postFavorite_history (s : Store) (n : String) (c st : Option String)
    (lat lon : Int) (uid : Option String) (t : Nat) :
    (postFavorite s n c st lat lon uid t).2.history = s.history := by
  obtain ⟨p, hp⟩ : ∃ x,
      resolveOrCreateLocation s ⟨n, c.getD "Unknown", st, lat, lon⟩ t = x :=
    ⟨_, rfl⟩
  have hh : p.2.history = s.history := by
    rw [← hp]
    exact resolveOrCreateLocation_history s _ t
  cases hguard : isFavorite p.2 p.1.id uid with
  | true =>
      simp only [postFavorite, hp, hguard]
      rw [if_pos trivial]
      exact hh
  | false =>
      simp only [postFavorite, hp, hguard]
      rw [if_neg (by simp)]
      exact hh

/-- record-visit never touches the favourites table. -/
theorem postHistory_favorites (s : Store) (n : String) (c st : Option String)
    (lat lon : Int) (uid : Option String) (t : Nat) :
    (postHistory s n c st lat lon uid t).2.favorites = s.favorites := by
  obtain ⟨p, hp⟩ : ∃ x,
      resolveOrCreateLocation s ⟨n, c.getD "Unknown", st, lat, lon⟩ t = x :=
    ⟨_, rfl⟩
  have hh : p.2.favorites = s.favorites := by
    rw [← hp]
    exact resolveOrCreateLocation_favorites s _ t
  simp only [postHistory, hp]
  rw [addToHistory_favorites]
  exact hh

/-- The duplicate check of the add-favorite route preserves key
uniqueness of the favourites table. -/
theorem favRowsUnique_postFavorite (s : Store) (n : String)
    (c st : Option String) (lat lon : Int) (uid : Option String) (t : Nat)
    (h : favRowsUnique s.favorites) :
    favRowsUnique (postFavorite s n c st lat lon uid t).2.favorites := by
  obtain ⟨p, hp⟩ : ∃ x,
      resolveOrCreateLocation s ⟨n, c.getD "Unknown", st, lat, lon⟩ t = x :=
    ⟨_, rfl⟩
  have hfavs : p.2.favorites = s.favorites := by
    rw [← hp]
    exact resolveOrCreateLocation_favorites s _ t
  cases hguard : isFavorite p.2 p.1.id uid with
  | true =>
      simp only [postFavorite, hp, hguard]
      rw [if_pos trivial, hfavs]
      exact h
  | false =>
      simp only [postFavorite, hp, hguard]
      rw [if_neg (by simp), addFavorite_favorites]
      rw [favRowsUnique, List.pairwise_append]
      refine ⟨by rw [hfavs]; exact h, List.pairwise_singleton _ _, ?_⟩
      intro a ha b hb
      rw [List.mem_singleton] at hb
      subst hb
      intro hcontra
      rw [isFavorite, List.any_eq_false] at hguard
      apply hguard a ha
      rw [favMatches, scopeMatches_eq_normId]
      have h1 : a.locationId = p.1.id := hcontra.1
      have h2 : a.userId = normId uid := hcontra.2
      rw [h1, h2]
      simp

/-- The upsert of `addToHistory` preserves key uniqueness of the history
table. -/
theorem histRowsUnique_addToHistory (s : Store) (locId : Nat)
    (uid : Option String) (t : Nat) (h : histRowsUnique s.history) :
    histRowsUnique (addToHistory s locId uid t).history := by
  cases hf : s.history.find? (histMatches locId uid) with
  | some ex =>
      simp only [addToHistory, hf]
      rw [histRowsUnique, List.pairwise_map]
      refine h.imp ?_
      intro a b hab hcontra
      rw [bumpVisit_locationId, bumpVisit_locationId, bumpVisit_userId,
        bumpVisit_userId] at hcontra
      exact hab hcontra
  | none =>
      simp only [addToHistory, hf]
      rw [histRowsUnique, List.pairwise_append]
      refine ⟨h, List.pairwise_singleton _ _, ?_⟩
      intro a ha b hb
      rw [List.mem_singleton] at hb
      subst hb
      intro hcontra
      apply List.find?_eq_none.1 hf a ha
      rw [histMatches, scopeMatches_eq_normId]
      have h1 : a.locationId = locId := hcontra.1
      have h2 : a.userId = normId uid := hcontra.2
      rw [h1, h2]
      simp

/-- C1: in every store reachable from the empty store by sequential
facade operations there is at most one Favorite row and at most one
HistoryEntry row per (location, identity) pair — both as pairwise key
distinctness of the two tables and as a bound on the number of rows
matching any concrete key. -/
theorem reachable_at_most_one_per_pair (s : Store) (h : Reachable s) :
    favRowsUnique s.favorites ∧ histRowsUnique s.history ∧
    ∀ lid : Nat, ∀ u : Option String,
      (s.favorites.filter
        (fun r => r.locationId == lid && r.userId == u)).length ≤ 1 ∧
      (s.history.filter
        (fun r => r.locationId == lid && r.userId == u)).length ≤ 1 := by
  have main : favRowsUnique s.favorites ∧ histRowsUnique s.history := by
    induction h with
    | empty => exact ⟨List.Pairwise.nil, List.Pairwise.nil⟩
    | step s' op now hr ih =>
        obtain ⟨hf, hh⟩ := ih
        cases op with
        | addFav n c st lat lon uid =>
            refine ⟨favRowsUnique_postFavorite s' n c st lat lon uid now hf, ?_⟩
            show histRowsUnique (postFavorite s' n c st lat lon uid now).2.history
            rw [postFavorite_history]
            exact hh
        | removeFav l uid =>
            refine ⟨?_, hh⟩
            show favRowsUnique (removeFavorite s' l uid).favorites
            exact List.Pairwise.sublist (List.filter_sublist _) hf
        | addHist n c st lat lon uid =>
            constructor
            · show favRowsUnique (postHistory s' n c st lat lon uid now).2.favorites
              rw [postHistory_favorites]
              exact hf
            · show histRowsUnique (postHistory s' n c st lat lon uid now).2.history
              obtain ⟨p, hp⟩ : ∃ x, resolveOrCreateLocation s'
                  ⟨n, c.getD "Unknown", st, lat, lon⟩ now = x := ⟨_, rfl⟩
              simp only [postHistory, hp]
              apply histRowsUnique_addToHistory
              have hph : p.2.history = s'.history := by
                rw [← hp]
                exact resolveOrCreateLocation_history s' _ now
              rw [hph]
              exact hh
        | clearHist uid =>
            refine ⟨hf, ?_⟩
            show histRowsUnique (clearHistory s' uid).history
            exact List.Pairwise.sublist (List.filter_sublist _) hh
  refine ⟨main.1, main.2, ?_⟩
  intro lid u
  constructor
  · apply length_filter_le_one
    refine main.1.imp ?_
    intro a b hab hcontra
    apply hab
    have h1 := hcontra.1
    have h2 := hcontra.2
    rw [Bool.and_eq_true, beq_iff_eq, beq_iff_eq] at h1 h2
    exact ⟨h1.1.trans h2.1.symm, h1.2.trans h2.2.symm⟩
  · apply length_filter_le_one
    refine main.2.imp ?_
    intro a b hab hcontra
    apply hab
    have h1 := hcontra.1
    have h2 := hcontra.2
    rw [Bool.and_eq_true, beq_iff_eq, beq_iff_eq] at h1 h2
    exact ⟨h1.1.trans h2.1.symm, h1.2.trans h2.2.symm⟩

theorem reachable_at_most_one_per_pair_witness :
    favRowsUnique (applyOp (applyOp emptyStore
        (Op.addFav "Paris" (some "FR") none 48 2 none) 1)
        (Op.addHist "Paris" (some "FR") none 48 2 none) 2).favorites ∧
    histRowsUnique (applyOp (applyOp emptyStore
        (Op.addFav "Paris" (some "FR") none 48 2 none) 1)
        (Op.addHist "Paris" (some "FR") none 48 2 none) 2).history ∧
    ∀ lid : Nat, ∀ u : Option String,
      ((applyOp (applyOp emptyStore
          (Op.addFav "Paris" (some "FR") none 48 2 none) 1)
          (Op.addHist "Paris" (some "FR") none 48 2 none) 2).favorites.filter
        (fun r => r.locationId == lid && r.userId == u)).length ≤ 1 ∧
      ((applyOp (applyOp emptyStore
          (Op.addFav "Paris" (some "FR") none 48 2 none) 1)
          (Op.addHist "Paris" (some "FR") none 48 2 none) 2).history.filter
        (fun r => r.locationId == lid && r.userId == u)).length ≤ 1 :=
  reachable_at_most_one_per_pair _
    (Reachable.step _ (Op.addHist "Paris" (some "FR") none 48 2 none) 2
      (Reachable.step _ (Op.addFav "Paris" (some "FR") none 48 2 none) 1
        Reachable.empty))

/-! ### History listing: order, limit, default (C6) -/

theorem historyQuery_sorted (s : Store) (uid : Option String) :
    List.Sorted histOrder (historyQuery s uid) := by
  haveI : IsTotal (HistoryRow × Location) histOrder :=
    ⟨fun a b => Nat.le_total b.1.lastVisited a.1.lastVisited⟩
  haveI : IsTrans (HistoryRow × Location) histOrder :=
    ⟨fun _ _ _ h₁ h₂ => Nat.le_trans h₂ h₁⟩
  exact List.sorted_insertionSort histOrder _

/-- A concrete location used by the worked examples. -/
def exampleLoc (i : Nat) : Location :=
  ⟨i, "L", "Unknown", none, Int.ofNat i, Int.ofNat i, 0, 0⟩

/-- A store holding five history entries for the anonymous identity,
visited at times 1..5. -/
def exampleHistStore : Store :=
  ⟨[exampleLoc 1, exampleLoc 2, exampleLoc 3, exampleLoc 4, exampleLoc 5],
    [],
    [⟨1, 1, none, 1, 1⟩, ⟨2, 2, none, 1, 2⟩, ⟨3, 3, none, 1, 3⟩,
      ⟨4, 4, none, 1, 4⟩, ⟨5, 5, none, 1, 5⟩],
    6, 1, 6⟩

/-- C6: `listHistory` returns at most `limit` locations; the underlying
query rows are ordered by last-visited time descending; an omitted
`limit` means 10; and on a store with five history entries, `limit = 2`
returns exactly the two most recently visited locations, most recent
first. -/
theorem listHistory_limit_order (s : Store) (uid : Option String)
    (limit : Nat) :
    (getLocationHistory s uid limit).length ≤ limit ∧
    List.Sorted (fun a b : Nat => b ≤ a)
      (((historyQuery s uid).take limit).map (fun p => p.1.lastVisited)) ∧
    getLocationHistoryD s uid = getLocationHistory s uid 10 ∧
    getLocationHistory exampleHistStore none 2 =
      [exampleLoc 5, exampleLoc 4] := by
  refine ⟨?_, ?_, rfl, by decide⟩
  · rw [getLocationHistory, List.length_map, List.length_take]
    exact min_le_left _ _
  · rw [List.Sorted, List.pairwise_map]
    refine List.Pairwise.sublist (List.take_sublist _ _) ?_
    exact historyQuery_sorted s uid

/-! ### Clearing history: frame conditions (C7) -/

/-- C7: `clearHistory` empties exactly the identity's scope: afterwards
the identity's history listing is empty, while the favourites and
locations tables, the history rows of any identity with a different
scope, and that identity's history listing are untouched. -/
theorem clearHistory_frame (s : Store) (uid uid₂ : Option String)
    (limit limit₂ : Nat) (h : normId uid₂ ≠ normId uid) :
    getLocationHistory (clearHistory s uid) uid limit = [] ∧
    (clearHistory s uid).favorites = s.favorites ∧
    (clearHistory s uid).locations = s.locations ∧
    (clearHistory s uid).history.filter
        (fun r => scopeMatches uid₂ r.userId) =
      s.history.filter (fun r => scopeMatches uid₂ r.userId) ∧
    getLocationHistory (clearHistory s uid) uid₂ limit₂ =
      getLocationHistory s uid₂ limit₂ := by
  have hscoped : (clearHistory s uid).history =
      s.history.filter (fun r => !(scopeMatches uid r.userId)) := rfl
  have hfilter : (clearHistory s uid).history.filter
      (fun r => scopeMatches uid₂ r.userId) =
      s.history.filter (fun r => scopeMatches uid₂ r.userId) := by
    rw [hscoped, List.filter_comm, List.filter_eq_self]
    intro a ha
    have ha2 := (List.mem_filter.1 ha).2
    rw [scopeMatches_eq_normId, beq_iff_eq] at ha2
    rw [Bool.not_eq_true', scopeMatches_eq_normId, beq_eq_false_iff_ne]
    rw [ha2]
    exact h
  refine ⟨?_, rfl, rfl, hfilter, ?_⟩
  · have hempty : (clearHistory s uid).history.filter
        (fun r => scopeMatches uid r.userId) = [] := by
      rw [hscoped, List.filter_eq_nil_iff]
      intro a ha
      have ha2 := (List.mem_filter.1 ha).2
      rw [Bool.not_eq_true'] at ha2
      simp [ha2]
    rw [getLocationHistory, historyQuery, hempty]
    simp
  · rw [getLocationHistory, getLocationHistory, historyQuery, historyQuery]
    simp only [show (clearHistory s uid).locations = s.locations from rfl]
    rw [hfilter]

/-- A store with one anonymous history row and one history row owned by
identity `u`, for the C7 witness. -/
def exampleTwoScopeStore : Store :=
  ⟨[exampleLoc 1, exampleLoc 2], [],
    [⟨1, 1, none, 1, 1⟩, ⟨2, 2, some "u", 1, 2⟩], 3, 1, 3⟩

theorem clearHistory_frame_witness :
    getLocationHistory (clearHistory exampleTwoScopeStore none) none 10 = [] ∧
    (clearHistory exampleTwoScopeStore none).favorites =
      exampleTwoScopeStore.favorites ∧
    (clearHistory exampleTwoScopeStore none).locations =
      exampleTwoScopeStore.locations ∧
    (clearHistory exampleTwoScopeStore none).history.filter
        (fun r => scopeMatches (some "u") r.userId) =
      exampleTwoScopeStore.history.filter
        (fun r => scopeMatches (some "u") r.userId) ∧
    getLocationHistory (clearHistory exampleTwoScopeStore none) (some "u") 10 =
      getLocationHistory exampleTwoScopeStore (some "u") 10 :=
  clearHistory_frame exampleTwoScopeStore none (some "u") 10 10 (by decide)

/-! ### Favourites listing: scope and ordering (C8)

The source query (`storage.ts`) is `ORDER BY created_at DESC` with no
secondary sort key, so the program guarantees no particular order among
favourites created at the same instant.  The claimed insertion-order /
surrogate-id tiebreak is therefore refuted by an admissible query result
that lists two tied rows in descending id order; what does hold is the
amended claim: creation-time-descending order and exact identity
scoping, for every admissible result. -/

theorem favQuery_sorted (s : Store) (uid : Option String) :
    List.Sorted favOrder (favQuery s uid) := by
  haveI : IsTotal (FavoriteRow × Location) favOrder :=
    ⟨fun a b => Nat.le_total b.1.createdAt a.1.createdAt⟩
  haveI : IsTrans (FavoriteRow × Location) favOrder :=
    ⟨fun _ _ _ h₁ h₂ => Nat.le_trans h₂ h₁⟩
  exact List.sorted_insertionSort favOrder _

/-- A store with three favourites: two created at the same instant
(ids 1 and 2) and a later one (id 3). -/
def exampleTieStore : Store :=
  ⟨[exampleLoc 1, exampleLoc 2, exampleLoc 3],
    [⟨1, 1, none, 5⟩, ⟨2, 2, none, 5⟩, ⟨3, 3, none, 7⟩], [], 4, 4, 1⟩

/-- An admissible result for `exampleTieStore` that lists the two tied
rows in descending id order: id 2 before id 1. -/
def exampleTieBadResult : List (FavoriteRow × Location) :=
  [(⟨3, 3, none, 7⟩, exampleLoc 3), (⟨2, 2, none, 5⟩, exampleLoc 2),
    (⟨1, 1, none, 5⟩, exampleLoc 1)]

/-- C8 counterexample: on a store with two favourites sharing one
creation instant (ids 1 and 2), the result that lists the tied rows as
id 2 before id 1 is admissible for `ORDER BY created_at DESC` — the
query has no tiebreak — yet violates the claimed ordering "creation
time descending with ties broken by insertion order (ascending
surrogate id)". -/
theorem listFavorites_tiebreak_cex :
    orderByCreatedAtDescAdmissible (favJoinRows exampleTieStore none)
      exampleTieBadResult ∧
    ¬(exampleTieBadResult.Pairwise
      (fun p q => q.1.createdAt ≤ p.1.createdAt ∧
        (p.1.createdAt = q.1.createdAt → p.1.id < q.1.id))) :=
  ⟨⟨by decide, by decide⟩, by decide⟩

/-- C8 (amended): every result admissible for the favourites query —
any permutation of the scoped join that `ORDER BY created_at DESC`
allows — contains only rows of the identity's scope (an absent identity
means the rows with null identity, never all identities) and is ordered
by creation time descending; no order among equal creation times is
guaranteed.  The executable model `favQuery` is one admissible
result. -/
theorem listFavorites_scope_order_amended (s : Store) (uid : Option String)
    (result : List (FavoriteRow × Location))
    (hadm : orderByCreatedAtDescAdmissible (favJoinRows s uid) result) :
    (∀ p ∈ result, p.1.userId = normId uid) ∧
    result.Pairwise (fun p q => q.1.createdAt ≤ p.1.createdAt) ∧
    orderByCreatedAtDescAdmissible (favJoinRows s uid) (favQuery s uid) := by
  obtain ⟨hperm, hsorted⟩ := hadm
  refine ⟨?_, hsorted, ?_, ?_⟩
  · intro p hp
    have hp2 : p ∈ favJoinRows s uid := hperm.mem_iff.mp hp
    obtain ⟨r, hr, heq⟩ := List.mem_filterMap.1 hp2
    obtain ⟨l, _, hpl⟩ := Option.map_eq_some'.1 heq
    have hscope := (List.mem_filter.1 hr).2
    rw [scopeMatches_eq_normId, beq_iff_eq] at hscope
    rw [← hpl]
    exact hscope
  · exact List.perm_insertionSort favOrder _
  · exact favQuery_sorted s uid

theorem listFavorites_scope_order_amended_witness :
    (∀ p ∈ favQuery exampleTieStore none, p.1.userId = normId none) ∧
    (favQuery exampleTieStore none).Pairwise
      (fun p q => q.1.createdAt ≤ p.1.createdAt) ∧
    orderByCreatedAtDescAdmissible (favJoinRows exampleTieStore none)
      (favQuery exampleTieStore none) :=
  listFavorites_scope_order_amended exampleTieStore none
    (favQuery exampleTieStore none) ⟨by decide, by decide⟩

end Skycast
